import Mathlib

/-!
Verification of the DataPipelineBuilderAndReviewer validation core.

A shallow embedding of `src/agents/validator.py` (with the collaborator
boundary of `src/agents/code_generator.py` and `src/main.py`), and proofs
settling the frozen claims about its specification.

Conventions:
* Pure Python functions become Lean functions with the same names.
* Python exceptions become `Except` errors (`PyExc`).
* External collaborators (the `ast.parse`/`compile` runtime services, the
  `ruff` subprocess, and the Ollama oracle) are parameters, mirroring the
  spec's collaborator model.
* The concrete fence-pattern `re.findall` of the source is implemented as
  an executable scanner with the exact backtracking semantics of that
  pattern (checked against CPython in `pyFindall_matches_python_re`).
-/

/-- The Python exception kinds relevant to this development.
`indexError` is what `list.pop()` raises on an empty list;
`unsafeCode` is the repository's `UnsafeCodeError` (carrying its message);
`typeError` is Python's error for calling a function with missing required
arguments; `recursionError` models Python's bounded recursion depth.
`extractionError` is *modelled from the spec*: the spec names a dedicated
`ExtractionError`, but no such class exists anywhere in the source; the
constructor exists only so claims mentioning it can be stated. -/
inductive PyExc where
  | indexError
  | typeError (msg : String)
  | unsafeCode (msg : String)
  | recursionError
  | extractionError
deriving DecidableEq

/-- The backtick character (U+0060), written via its code point. -/
def btick : Char := Char.ofNat 96

/-- Python's regex `\s` on ASCII input: space, tab, newline, carriage
return, vertical tab (11), form feed (12). -/
def isPyWs (c : Char) : Bool :=
  c = ' ' || c = '\t' || c = '\n' || c = '\r' || c = Char.ofNat 11 || c = Char.ofNat 12

/-- Does the list start with three consecutive backticks? -/
def tick3 (l : List Char) : Bool :=
  match l with
  | a :: b :: c :: _ => a = btick && b = btick && c = btick
  | _ => false

/-- Match a literal character sequence at the head of a list, returning the
remainder on success. -/
def stripTag : List Char → List Char → Option (List Char)
  | [], l => some l
  | _ :: _, [] => none
  | t :: ts, c :: cs => if c = t then stripTag ts cs else none

/-- The three language-tag alternatives of the fence pattern
`(?:python|py|Python)` — note they are case-sensitive literals. -/
def pythonT : List Char := ['p', 'y', 't', 'h', 'o', 'n']

/-- The tag alternative `py`. -/
def pyT : List Char := ['p', 'y']

/-- The tag alternative `Python`. -/
def pythonCapT : List Char := ['P', 'y', 't', 'h', 'o', 'n']

/-- First occurrence of three consecutive backticks in a list: returns the
content before it and the remainder after the three backticks (the lazy
`(.*?)` of the pattern searching for its closing fence). -/
def findClose : List Char → Option (List Char × List Char)
  | [] => none
  | c :: rest =>
    if tick3 (c :: rest) then some ([], rest.drop 2)
    else
      match findClose rest with
      | none => none
      | some (g, r) => some (c :: g, r)

/-- After a matched tag: greedy `\s?` (try consuming one whitespace first,
backtrack to zero on failure), then the lazy group up to the closing
fence. -/
def afterTag (r : List Char) : Option (List Char × List Char) :=
  match r with
  | c :: r' =>
    if isPyWs c then
      match findClose r' with
      | some p => some p
      | none => findClose r
    else findClose r
  | [] => none

/-- Third alternative of the ordered alternation: the tag `Python`. -/
def tryTagCap (l : List Char) : Option (List Char × List Char) :=
  match stripTag pythonCapT l with
  | some r => afterTag r
  | none => none

/-- Second alternative, backtracking into the third: the tag `py`. -/
def tryTagPy (l : List Char) : Option (List Char × List Char) :=
  match stripTag pyT l with
  | some r =>
    match afterTag r with
    | some p => some p
    | none => tryTagCap l
  | none => tryTagCap l

/-- The ordered alternation `(?:python|py|Python)` followed by `\s?(.*?)`
and the closing fence, with regex backtracking between alternatives. -/
def tryTags (l : List Char) : Option (List Char × List Char) :=
  match stripTag pythonT l with
  | some r =>
    match afterTag r with
    | some p => some p
    | none => tryTagPy l
  | none => tryTagPy l

/-- A left-to-right non-overlapping scan for the fence pattern, as
`re.findall` performs: at each position, try to match an opening fence,
tag, `\s?`, lazy content and closing fence; on a match record the group and
resume after the match, otherwise advance one character.  The fuel is a
step bound; `pyScan` supplies the list length, which dominates the number
of steps since every step strictly shrinks the list. -/
def fenceScanAux : Nat → List Char → List (List Char)
  | 0, _ => []
  | _ + 1, [] => []
  | f + 1, c :: rest =>
    if tick3 (c :: rest) then
      match tryTags (rest.drop 2) with
      | some (g, a) => g :: fenceScanAux f a
      | none => fenceScanAux f rest
    else fenceScanAux f rest

/-- The full scan of a character list. -/
def pyScan (l : List Char) : List (List Char) := fenceScanAux l.length l

/-- Embedding of `re.findall(r"```(?:python|py|Python)\s?(.*?)```", code, re.DOTALL)`. -/
def pyFindall (s : String) : List String :=
  (pyScan s.data).map fun l => String.mk l

/-- Source `extract_python_code` (validator.py:173-179): run the findall, then
`python_block.pop()` — which returns the *last* match, and raises
`IndexError` when the list of matches is empty. -/
def extract_python_code (code : String) : Except PyExc String :=
  match (pyFindall code).getLast? with
  | some r => .ok r
  | none => .error .indexError

/-- A character list containing no backtick at all (a sufficient condition
for containing no fenced region). -/
def tickFreeL (l : List Char) : Bool := l.all fun c => !(c == btick)

/-- A string containing no backtick at all. -/
def tickFreeS (s : String) : Bool := tickFreeL s.data

/-- Source `FORBIDDEN_NAMES` (validator.py:13-16). -/
def FORBIDDEN_NAMES : List String :=
  ["eval", "exec", "open", "compile", "__import__", "globals", "locals", "vars"]

/-- Source `FORBIDDEN_MODULES` (validator.py:18-22). -/
def FORBIDDEN_MODULES : List String :=
  ["os", "sys", "subprocess", "importlib", "pathlib",
   "shutil", "socket", "requests", "http", "urllib", "ftplib",
   "paramiko", "psutil"]

/-- Source `FORBIDDEN_STRINGS = FORBIDDEN_NAMES | FORBIDDEN_MODULES`
(validator.py:24); the two sets are disjoint, so list append has the same
membership as the set union. -/
def FORBIDDEN_STRINGS : List String := FORBIDDEN_NAMES ++ FORBIDDEN_MODULES

/-- Source `FORBIDDEN_ATTRS` (validator.py:26-28). -/
def FORBIDDEN_ATTRS : List String := ["system", "popen", "run", "remove", "unlink"]

/-- Embedding of `name.split('.')[0]`: the characters before the first dot. -/
def rootSeg (s : String) : String := String.mk (s.data.takeWhile fun c => !(c == '.'))

/-- The distinct raise sites of `SafeASTChecker` (validator.py:38-96), one
constructor per `raise UnsafeCodeError(...)`, carrying the data the source
interpolates into the message; `Violation.msg` recovers the exact message
string. -/
inductive Violation where
  | forbiddenImport (name : String)
  | forbiddenImportFrom (module : String)
  | forbiddenName (id : String)
  | builtinsAccess
  | forbiddenModuleAttr (m a : String)
  | forbiddenAttr (m a : String)
  | importlibCall
  | forbiddenModuleCall (m a : String)
  | forbiddenAttrCall (m a : String)
  | forbiddenLiteral (s : String)
deriving DecidableEq

/-- The exact `UnsafeCodeError` message raised at each site. -/
def Violation.msg : Violation → String
  | .forbiddenImport n => "Import of forbidden module: " ++ n
  | .forbiddenImportFrom m => "Import from forbidden module: " ++ m
  | .forbiddenName id => "Forbidden name: " ++ id
  | .builtinsAccess => "Access to __builtins__ is forbidden"
  | .forbiddenModuleAttr m a => "Forbidden module attribute access: " ++ m ++ "." ++ a
  | .forbiddenAttr m a => "Forbidden attribute/function access: " ++ m ++ "." ++ a
  | .importlibCall => "Dynamic imports via importlib are forbidden"
  | .forbiddenModuleCall m a => "Forbidden module call: " ++ m ++ "." ++ a
  | .forbiddenAttrCall m a => "Forbidden attribute/function call: " ++ m ++ "." ++ a
  | .forbiddenLiteral s => "Forbidden string literal: " ++ s

/-- Python abstract syntax, restricted to the node kinds `SafeASTChecker`
has dedicated `visit_` handlers for; every other node kind is `otherN`
with its child nodes listed in field order (`ast.NodeVisitor` reaches them
through `generic_visit` alone).  `importN` holds the dotted names of the
aliases of an `import` statement; `importFromN` the optional dotted module
of a `from ... import` (its alias children carry no checks);
`constantStrN` / `constantOtherN` split `ast.Constant` by whether the
value is a string. -/
inductive PyNode where
  | importN (names : List String)
  | importFromN (module : Option String)
  | nameN (id : String)
  | attributeN (value : PyNode) (attr : String)
  | callN (func : PyNode) (args : List PyNode)
  | constantStrN (s : String)
  | constantOtherN
  | moduleN (body : List PyNode)
  | otherN (children : List PyNode)

/-- The alias loop of `visit_Import` (validator.py:40-45): aliases in
order, raising on the first whose root segment is a forbidden module. -/
def checkAliases : List String → Except Violation Unit
  | [] => .ok ()
  | n :: rest =>
    if FORBIDDEN_MODULES.contains (rootSeg n) then .error (.forbiddenImport n)
    else checkAliases rest

mutual

/-- Embedding of `SafeASTChecker.visit` on one node: the node's own `visit_` checks in
source order, then `generic_visit` on the child nodes in field order.  A
raised `UnsafeCodeError` aborts the whole traversal, so the first
violation in depth-first order wins. -/
def checkNode : PyNode → Except Violation Unit
  | .importN names => checkAliases names
  | .importFromN m =>
    match m with
    | some mod =>
      if FORBIDDEN_MODULES.contains (rootSeg mod) then .error (.forbiddenImportFrom mod)
      else .ok ()
    | none => .ok ()
  | .nameN id =>
    if FORBIDDEN_NAMES.contains id then .error (.forbiddenName id)
    else if id = "__builtins__" then .error .builtinsAccess
    else .ok ()
  | .attributeN v a =>
    match v with
    | .nameN m =>
      if FORBIDDEN_MODULES.contains m then .error (.forbiddenModuleAttr m a)
      else if FORBIDDEN_ATTRS.contains a then .error (.forbiddenAttr m a)
      else checkNode v
    | _ => checkNode v
  | .callN f args =>
    match f with
    | .attributeN (.nameN m) a =>
      if m = "importlib" then .error .importlibCall
      else if FORBIDDEN_MODULES.contains m then .error (.forbiddenModuleCall m a)
      else if FORBIDDEN_ATTRS.contains a then .error (.forbiddenAttrCall m a)
      else
        match checkNode f with
        | .error e => .error e
        | .ok _ => checkList args
    | _ =>
      match checkNode f with
      | .error e => .error e
      | .ok _ => checkList args
  | .constantStrN s =>
    if FORBIDDEN_STRINGS.contains s then .error (.forbiddenLiteral s) else .ok ()
  | .constantOtherN => .ok ()
  | .moduleN body => checkList body
  | .otherN children => checkList children

/-- Embedding of `generic_visit` over a list of child nodes. -/
def checkList : List PyNode → Except Violation Unit
  | [] => .ok ()
  | x :: xs =>
    match checkNode x with
    | .error e => .error e
    | .ok _ => checkList xs

end

/-- Is the node a bare `ast.Name`? -/
def isNameN : PyNode → Bool
  | .nameN _ => true
  | _ => false

/-- Builds `d` layers of handler-less wrapper nodes (e.g. an `if False:` arm or a
nested function body): `generic_visit` traverses them all, so the checker
reaches the wrapped node even when that code could never execute. -/
def nestOther : Nat → PyNode → PyNode
  | 0, t => t
  | d + 1, t => .otherN [nestOther d t]

/-- Tests whether `pat` is a prefix of the second list. -/
def listStarts : List Char → List Char → Bool
  | [], _ => true
  | _ :: _, [] => false
  | p :: ps, c :: cs => p == c && listStarts ps cs

/-- Tests whether `pat` occurs contiguously in the second list. -/
def listOccurs (pat : List Char) : List Char → Bool
  | [] => listStarts pat []
  | c :: cs => listStarts pat (c :: cs) || listOccurs pat cs

/-- Python's substring test `pat in s`. -/
def strContains (s pat : String) : Bool := listOccurs pat.data s.data

/-- Source `validate_spark_usage` (validator.py:161-170) — defined in the source
but never invoked by `validate_generated_code`. -/
def validate_spark_usage (code : String) : Except PyExc Bool :=
  if !(strContains code "SparkSession") then
    .error (.unsafeCode "Missing SparkSession -- not a valid Spark Job.")
  else if !(strContains code "read." || strContains code ".read.") then
    .error (.unsafeCode "Saprk job is missing Dataframe reading operations")
  else .ok true

/-- Source `check_safe` (validator.py:99-109): parse via the ambient Python
parser (a collaborator parameter), wrapping a `SyntaxError` into
`UnsafeCodeError`, then run `SafeASTChecker` over the tree. -/
def check_safe (parse : String → Except String PyNode) (code : String) :
    Except PyExc Bool :=
  match parse code with
  | .error e => .error (.unsafeCode ("Syntax error: " ++ e))
  | .ok tree =>
    match checkNode tree with
    | .error v => .error (.unsafeCode v.msg)
    | .ok _ => .ok true

/-- Source `validate_compiles` (validator.py:113-119), over the ambient `compile`
builtin as a collaborator. -/
def validate_compiles (compileF : String → Except String Unit) (code : String) :
    Except PyExc Bool :=
  match compileF code with
  | .error e => .error (.unsafeCode ("Code failed to compile: " ++ e))
  | .ok _ => .ok true

/-- Source `run_ruff_lint` (validator.py:137-157): the external `ruff` process is
the collaborator `(exit code, stdout)`; a nonzero exit code gives
`(False, diagnostics)` with diagnostics = captured stdout, exit code zero
gives `(True, "")`. -/
def run_ruff_lint (ruffExit : String → Nat × String) (code : String) : Bool × String :=
  let rc := (ruffExit code).1
  let diagnostics := (ruffExit code).2
  if rc ≠ 0 then (false, diagnostics) else (true, "")

/-- The f-string text of `get_ruff_fix_prompt` before `{code}`. -/
def RUFF_P1 : String :=
  "\n    You previously generated this PySpark code:\n\n    ```python\n    "

/-- The f-string text between `{code}` and `{ruff_output}`. -/
def RUFF_P2 : String :=
  "\n    ```\n    Ruff reported the following issues:\n    "

/-- The f-string text after `{ruff_output}`. -/
def RUFF_P3 : String :=
  "\n    Please fix ALL ruff issues.\n    Return only the corrected Python code inside a ```python fenced block with no explanation.\n    "

/-- Source `get_ruff_fix_prompt` (validator.py:122-134). -/
def get_ruff_fix_prompt (code ruff_output : String) : String :=
  RUFF_P1 ++ code ++ RUFF_P2 ++ ruff_output ++ RUFF_P3

/-- The Python values the pipeline entry point can produce: `True` on the
lint-clean path, `None` on the fall-through, and (for stating the spec's
`Accepted(code)` outcome) a string — which the code never returns. -/
inductive PyVal where
  | bool (b : Bool)
  | none
  | str (s : String)
deriving DecidableEq

/-- The spec's pipeline stages (§4.6), recorded as each completes. -/
inductive Stage where
  | extracted
  | safetyChecked
  | compiled
  | domainChecked
  | linted
  | repairRequested
deriving DecidableEq

/-- The ambient collaborators of the validator: the Python parser behind
`ast.parse`, the `compile` builtin, and the `ruff` subprocess. -/
structure Collab where
  parse : String → Except String PyNode
  compileF : String → Except String Unit
  ruffExit : String → Nat × String

/-- Source `validate_generated_code` (validator.py:183-204) under Python's actual
call semantics, also returning the list of completed stages.  On lint
failure the source builds the repair prompt and then evaluates
`query_ollama(new_prompt)`; `query_ollama` (code_generator.py:27) declares
two required positional parameters `(prompt, model)`, so that call raises
`TypeError` before any request is issued and before any recursion. -/
def validate_generated_code (co : Collab) (code : String) :
    Except PyExc PyVal × List Stage :=
  match extract_python_code code with
  | .error e => (.error e, [])
  | .ok python_code =>
    match check_safe co.parse python_code with
    | .error e => (.error e, [.extracted])
    | .ok _ =>
      match validate_compiles co.compileF python_code with
      | .error e => (.error e, [.extracted, .safetyChecked])
      | .ok _ =>
        match run_ruff_lint co.ruffExit python_code with
        | (true, _) =>
          (.ok (.bool true), [.extracted, .safetyChecked, .compiled, .linted])
        | (false, diagnostics) =>
          let _new_prompt := get_ruff_fix_prompt python_code diagnostics
          (.error (.typeError "query_ollama() missing 1 required positional argument: 'model'"),
           [.extracted, .safetyChecked, .compiled, .linted])

/-- The observables of one whole pipeline run under the spec's Oracle
model: the Python result, the prompts submitted to the Oracle in order,
and the completed stages. -/
structure RunOut where
  result : Except PyExc PyVal
  prompts : List String
  stages : List Stage

/-- Source `validate_generated_code` under the spec's collaborator model of the
Oracle (`Oracle.generate(prompt) -> text`, spec §1), in which the repair
request does reach the Oracle.  Modelled from the spec at exactly one
point: the call `query_ollama(new_prompt)` (validator.py:203) is read as
`oracle new_prompt`, abstracting away the missing `model` argument that
makes the concrete call raise `TypeError`.  The source recursion is
unbounded; `fuel` bounds the depth as Python's interpreter does, and
exhausting it models Python's `RecursionError`.  The recursive call's
value is discarded exactly as in the source (line 204 is a bare
statement), but an exception it raises propagates. -/
def validateWithOracle (co : Collab) (oracle : String → String) :
    Nat → String → RunOut
  | 0, _ => ⟨.error .recursionError, [], []⟩
  | fuel + 1, code =>
    match extract_python_code code with
    | .error e => ⟨.error e, [], []⟩
    | .ok python_code =>
      match check_safe co.parse python_code with
      | .error e => ⟨.error e, [], [.extracted]⟩
      | .ok _ =>
        match validate_compiles co.compileF python_code with
        | .error e => ⟨.error e, [], [.extracted, .safetyChecked]⟩
        | .ok _ =>
          match run_ruff_lint co.ruffExit python_code with
          | (true, _) =>
            ⟨.ok (.bool true), [], [.extracted, .safetyChecked, .compiled, .linted]⟩
          | (false, diagnostics) =>
            let new_prompt := get_ruff_fix_prompt python_code diagnostics
            let r := validateWithOracle co oracle fuel (oracle new_prompt)
            ⟨match r.result with
             | .error e => .error e
             | .ok _ => .ok .none,
             new_prompt :: r.prompts,
             [.extracted, .safetyChecked, .compiled, .linted, .repairRequested] ++ r.stages⟩

/-- Python's `str.strip()` on ASCII input: surrounding whitespace removed.
Used only to *state* the spec's "trimmed" property; the source never
strips. -/
def pyStrip (s : String) : String :=
  String.mk (((s.data.dropWhile isPyWs).reverse.dropWhile isPyWs).reverse)

/-- The list `[btick, btick, btick]` — a closing fence. -/
def ticksL : List Char := [btick, btick, btick]

/-- An opening fence with the `python` tag and one newline. -/
def fenceOpenL : List Char := ticksL ++ pythonT ++ ['\n']

/-- Concrete run A, used for claim C1: the extracted code `x = 1` is not a
Spark job at all.  Its syntax tree: `Module(body=[Assign(targets=[Name('x')],
value=Constant(1))])`; `Assign` has no dedicated visitor, hence `otherN`. -/
def astAssignX1 : PyNode := .moduleN [.otherN [.nameN "x", .constantOtherN]]

/-- Collaborators for run A: the parser yields the tree of `x = 1`, the
compile builtin succeeds, and `ruff` exits 0 with empty stdout. -/
def collabA : Collab := ⟨fun _ => .ok astAssignX1, fun _ => .ok (), fun _ => (0, "")⟩

/-- The artifact of run A. -/
def artifactA : String := "```python\nx = 1\n```"

/-- Concrete run B, used for claim C2: extracted code that mentions
`SparkSession` and a `read.` operation and is lint-clean.  Its tree:
`Module(body=[Assign([Name('x')], Name('SparkSession')),
Assign([Name('y')], Attribute(Attribute(Name('x'),'read'),'csv'))])`. -/
def sparkCode : String := "x = SparkSession\ny = x.read.csv\n"

/-- The syntax tree of `sparkCode`. -/
def astSpark : PyNode :=
  .moduleN
    [.otherN [.nameN "x", .nameN "SparkSession"],
     .otherN [.nameN "y", .attributeN (.attributeN (.nameN "x") "read") "csv"]]

/-- Collaborators for run B: parser yields `astSpark`, compile succeeds,
`ruff` exits 0. -/
def collabB : Collab := ⟨fun _ => .ok astSpark, fun _ => .ok (), fun _ => (0, "")⟩

/-- The artifact of run B. -/
def artifactB : String := "```python\nx = SparkSession\ny = x.read.csv\n```"

/-- Concrete run C, used for claim C5's witness: the extracted code is the
bare expression `eval`, tree `Module(body=[Expr(Name('eval'))])`. -/
def astEval : PyNode := .moduleN [.otherN [.nameN "eval"]]

/-- Collaborators for run C. -/
def collabC : Collab := ⟨fun _ => .ok astEval, fun _ => .ok (), fun _ => (0, "")⟩

/-- The artifact of run C. -/
def artifactC : String := "```python\neval\n```"

/-- Concrete run D, used for claim C6: safe, compiling code
(`import math`) on which `ruff` exits 1 with a diagnostic. -/
def astImportMath : PyNode := .moduleN [.importN ["math"]]

/-- Collaborators for run D: `ruff` reports an unused import. -/
def collabD : Collab :=
  ⟨fun _ => .ok astImportMath, fun _ => .ok (),
   fun _ => (1, "F401 math imported but unused")⟩

/-- The artifact of run D. -/
def artifactD : String := "```python\nimport math\n```"

/-- Concrete run E, used for claim C7's witness: extracted code
`import os`, tree `Module(body=[Import(names=[alias('os')])])`. -/
def astImportOs : PyNode := .moduleN [.importN ["os"]]

/-- Collaborators for run E. -/
def collabE : Collab := ⟨fun _ => .ok astImportOs, fun _ => .ok (), fun _ => (0, "")⟩

/-- The artifact of run E. -/
def artifactE : String := "```python\nimport os\n```"

/-- Concrete run F, used for claim C10: first artifact `a = 2` draws a
lint diagnostic; the repaired artifact `b = 3` is lint-clean. -/
def codeF1 : String := "a = 2\n"

/-- The repaired source of run F. -/
def codeF2 : String := "b = 3\n"

/-- Tree of `a = 2`. -/
def astF1 : PyNode := .moduleN [.otherN [.nameN "a", .constantOtherN]]

/-- Tree of `b = 3`. -/
def astF2 : PyNode := .moduleN [.otherN [.nameN "b", .constantOtherN]]

/-- Collaborators for run F: the parser answers per input, `ruff` flags
only the first source. -/
def collabF : Collab :=
  ⟨fun s => if s = codeF1 then .ok astF1 else .ok astF2,
   fun _ => .ok (),
   fun s => if s = codeF1 then (1, "E225 missing whitespace around operator") else (0, "")⟩

/-- The first artifact of run F. -/
def artifactF : String := "```python\na = 2\n```"

/-- The Oracle of run F: whatever the prompt, it answers with the repaired
artifact. -/
def oracleF : String → String := fun _ => "```python\nb = 3\n```"

/-- An Oracle that always answers the empty string (for runs that must
never consult it). -/
def oracleNull : String → String := fun _ => ""

/-- Regression checks of the findall embedding against the behaviour of
CPython's `re` module on the same pattern (each right-hand side is what
`re.findall(r"```(?:python|py|Python)\s?(.*?)```", s, re.DOTALL)`
returns on the given input). -/
theorem pyFindall_matches_python_re :
    pyFindall "x = 1" = [] ∧
    pyFindall "```python\nx = 1\n```" = ["x = 1\n"] ∧
    pyFindall "```PY\nx = 1\n```" = [] ∧
    pyFindall "a ```py one``` b ```Python\ntwo``` c" = ["one", "two"] ∧
    pyFindall "```pyx\n1``` " = ["x\n1"] ∧
    pyFindall "```py\n\na````b```" = ["\na"] ∧
    pyFindall "``````python\nx```" = ["x"] ∧
    pyFindall "```python```" = [""] ∧
    pyFindall "```py``````py\nz```" = ["", "z"] ∧
    pyFindall "```python x=1```" = ["x=1"] ∧
    pyFindall "```pythonx=1```" = ["x=1"] ∧
    pyFindall "pre```Python\n  b2  \n```post" = ["  b2  \n"] ∧
    pyFindall "```python\nfirst\n``` mid ```python\nsecond\n``` tail" = ["first\n", "second\n"] :=
  ⟨rfl, rfl, rfl, rfl, rfl, rfl, rfl, rfl, rfl, rfl, rfl, rfl, rfl⟩

theorem fenceScanAux_nil (f : Nat) : fenceScanAux f [] = [] := by
  cases f <;> rfl

theorem fenceScanAux_cons (f : Nat) (c : Char) (rest : List Char) :
    fenceScanAux (f + 1) (c :: rest) =
      if tick3 (c :: rest) then
        match tryTags (rest.drop 2) with
        | some (g, a) => g :: fenceScanAux f a
        | none => fenceScanAux f rest
      else fenceScanAux f rest := rfl

theorem stripTag_length : ∀ (t l r : List Char), stripTag t l = some r → r.length ≤ l.length := by
  intro t
  induction t with
  | nil =>
    intro l r h
    rw [stripTag] at h
    cases h
    exact le_rfl
  | cons a ts ih =>
    intro l r h
    cases l with
    | nil => exact absurd h (by simp [stripTag])
    | cons c cs =>
      rw [stripTag] at h
      by_cases hc : c = a
      · rw [if_pos hc] at h
        have := ih cs r h
        simp only [List.length_cons]
        omega
      · rw [if_neg hc] at h
        exact absurd h (by simp)

theorem findClose_length : ∀ (l g r : List Char), findClose l = some (g, r) → r.length < l.length := by
  intro l
  induction l with
  | nil => intro g r h; exact absurd h (by simp [findClose])
  | cons c rest ih =>
    intro g r h
    rw [findClose] at h
    by_cases ht : tick3 (c :: rest) = true
    · rw [if_pos ht] at h
      simp only [Option.some.injEq, Prod.mk.injEq] at h
      obtain ⟨hg, hr⟩ := h
      subst hr
      simp only [List.length_drop, List.length_cons]
      omega
    · rw [if_neg ht] at h
      cases hfc : findClose rest with
      | none => rw [hfc] at h; exact absurd h (by simp)
      | some p =>
        obtain ⟨g2, r2⟩ := p
        rw [hfc] at h
        have h' : some (c :: g2, r2) = some (g, r) := h
        simp only [Option.some.injEq, Prod.mk.injEq] at h'
        obtain ⟨hg, hr⟩ := h'
        subst hr
        have := ih g2 r2 hfc
        simp only [List.length_cons]
        omega

theorem afterTag_length (r g a : List Char) (h : afterTag r = some (g, a)) :
    a.length < r.length := by
  cases r with
  | nil => exact absurd h (by simp [afterTag])
  | cons c r' =>
    rw [afterTag] at h
    by_cases hw : isPyWs c = true
    · rw [if_pos hw] at h
      cases hfc : findClose r' with
      | none =>
        rw [hfc] at h
        exact findClose_length (c :: r') g a h
      | some p =>
        obtain ⟨g2, a2⟩ := p
        rw [hfc] at h
        have h' : some (g2, a2) = some (g, a) := h
        simp only [Option.some.injEq, Prod.mk.injEq] at h'
        obtain ⟨hg, ha⟩ := h'
        subst ha
        have := findClose_length r' g2 a2 hfc
        simp only [List.length_cons]
        omega
    · rw [if_neg hw] at h
      exact findClose_length (c :: r') g a h

theorem tryTagCap_length (l g a : List Char) (h : tryTagCap l = some (g, a)) :
    a.length < l.length := by
  rw [tryTagCap] at h
  cases hst : stripTag pythonCapT l with
  | none => rw [hst] at h; exact absurd h (by simp)
  | some r =>
    rw [hst] at h
    have h' : afterTag r = some (g, a) := h
    have h1 := stripTag_length _ _ _ hst
    have h2 := afterTag_length _ _ _ h'
    omega

theorem tryTagPy_length (l g a : List Char) (h : tryTagPy l = some (g, a)) :
    a.length < l.length := by
  rw [tryTagPy] at h
  cases hst : stripTag pyT l with
  | none => rw [hst] at h; exact tryTagCap_length _ _ _ h
  | some r =>
    rw [hst] at h
    have h' : (match afterTag r with
               | some p => some p
               | none => tryTagCap l) = some (g, a) := h
    cases hat : afterTag r with
    | none => rw [hat] at h'; exact tryTagCap_length _ _ _ h'
    | some p =>
      obtain ⟨g2, a2⟩ := p
      rw [hat] at h'
      have h'' : some (g2, a2) = some (g, a) := h'
      simp only [Option.some.injEq, Prod.mk.injEq] at h''
      obtain ⟨hg, ha⟩ := h''
      subst ha
      have h1 := stripTag_length _ _ _ hst
      have h2 := afterTag_length _ _ _ hat
      omega

theorem tryTags_length (l g a : List Char) (h : tryTags l = some (g, a)) :
    a.length < l.length := by
  rw [tryTags] at h
  cases hst : stripTag pythonT l with
  | none => rw [hst] at h; exact tryTagPy_length _ _ _ h
  | some r =>
    rw [hst] at h
    have h' : (match afterTag r with
               | some p => some p
               | none => tryTagPy l) = some (g, a) := h
    cases hat : afterTag r with
    | none => rw [hat] at h'; exact tryTagPy_length _ _ _ h'
    | some p =>
      obtain ⟨g2, a2⟩ := p
      rw [hat] at h'
      have h'' : some (g2, a2) = some (g, a) := h'
      simp only [Option.some.injEq, Prod.mk.injEq] at h''
      obtain ⟨hg, ha⟩ := h''
      subst ha
      have h1 := stripTag_length _ _ _ hst
      have h2 := afterTag_length _ _ _ hat
      omega

theorem fenceScanAux_congr :
    ∀ (n f1 f2 : Nat) (l : List Char), l.length ≤ n → l.length ≤ f1 → l.length ≤ f2 →
      fenceScanAux f1 l = fenceScanAux f2 l := by
  intro n
  induction n with
  | zero =>
    intro f1 f2 l hl _ _
    have hnil : l = [] := List.length_eq_zero.mp (Nat.le_zero.mp hl)
    subst hnil
    rw [fenceScanAux_nil, fenceScanAux_nil]
  | succ n ih =>
    intro f1 f2 l hn h1 h2
    cases l with
    | nil => rw [fenceScanAux_nil, fenceScanAux_nil]
    | cons c rest =>
      have hl1 : rest.length + 1 ≤ f1 := by simpa using h1
      have hl2 : rest.length + 1 ≤ f2 := by simpa using h2
      obtain ⟨g1, rfl⟩ : ∃ g, f1 = g + 1 := ⟨f1 - 1, by omega⟩
      obtain ⟨g2, rfl⟩ : ∃ g, f2 = g + 1 := ⟨f2 - 1, by omega⟩
      rw [fenceScanAux_cons, fenceScanAux_cons]
      have hrest : rest.length ≤ n := by simpa using hn
      by_cases ht : tick3 (c :: rest) = true
      · rw [if_pos ht, if_pos ht]
        cases htt : tryTags (rest.drop 2) with
        | none =>
          exact ih g1 g2 rest hrest (by omega) (by omega)
        | some p =>
          obtain ⟨g, a⟩ := p
          have hlen := tryTags_length _ _ _ htt
          have hdrop : (rest.drop 2).length ≤ rest.length := by
            simp only [List.length_drop]
            omega
          have ha : a.length ≤ n := by omega
          show g :: fenceScanAux g1 a = g :: fenceScanAux g2 a
          rw [ih g1 g2 a ha (by omega) (by omega)]
      · rw [if_neg ht, if_neg ht]
        exact ih g1 g2 rest hrest (by omega) (by omega)

theorem pyScan_of_le {l : List Char} {f : Nat} (h : l.length ≤ f) :
    fenceScanAux f l = pyScan l :=
  fenceScanAux_congr l.length f l.length l le_rfl h le_rfl

theorem tick3_cons_ne {c : Char} (l : List Char) (h : c ≠ btick) :
    tick3 (c :: l) = false := by
  cases l with
  | nil => rfl
  | cons b t =>
    cases t with
    | nil => rfl
    | cons d t2 => simp [tick3, h]

theorem tickFree_mem {l : List Char} (h : tickFreeL l = true) : ∀ c ∈ l, c ≠ btick := by
  intro c hc
  rw [tickFreeL, List.all_eq_true] at h
  have := h c hc
  simpa using this

theorem pyScan_skip : ∀ (m s : List Char), (∀ c ∈ m, c ≠ btick) → pyScan (m ++ s) = pyScan s := by
  intro m
  induction m with
  | nil => intro s _; rfl
  | cons c m' ih =>
    intro s hm
    have hc : c ≠ btick := hm c (by simp)
    show fenceScanAux ((c :: (m' ++ s)).length) (c :: (m' ++ s)) = pyScan s
    rw [List.length_cons, fenceScanAux_cons, tick3_cons_ne _ hc]
    simp only [Bool.false_eq_true, if_false]
    exact ih s fun x hx => hm x (by simp [hx])

theorem pyScan_nil_of_tickFree (l : List Char) (h : ∀ c ∈ l, c ≠ btick) : pyScan l = [] := by
  have h6 := pyScan_skip l [] h
  rw [List.append_nil] at h6
  simpa using h6

theorem findClose_boundary : ∀ (b s : List Char), (∀ c ∈ b, c ≠ btick) →
    findClose (b ++ (ticksL ++ s)) = some (b, s) := by
  intro b
  induction b with
  | nil => intro s _; rfl
  | cons c b' ih =>
    intro s hb
    have hc : c ≠ btick := hb c (by simp)
    show findClose (c :: (b' ++ (ticksL ++ s))) = some (c :: b', s)
    rw [findClose, tick3_cons_ne _ hc]
    simp only [Bool.false_eq_true, if_false]
    rw [ih s fun x hx => hb x (by simp [hx])]

theorem stripTag_self : ∀ (t l : List Char), stripTag t (t ++ l) = some l := by
  intro t
  induction t with
  | nil => intro l; rfl
  | cons a ts ih =>
    intro l
    show stripTag (a :: ts) (a :: (ts ++ l)) = some l
    rw [stripTag, if_pos rfl]
    exact ih l

theorem tryTags_python (b s : List Char) (hb : ∀ c ∈ b, c ≠ btick) :
    tryTags (pythonT ++ '\n' :: (b ++ (ticksL ++ s))) = some (b, s) := by
  rw [tryTags, stripTag_self]
  have h1 : (match afterTag ('\n' :: (b ++ (ticksL ++ s))) with
             | some p => some p
             | none => tryTagPy (pythonT ++ '\n' :: (b ++ (ticksL ++ s)))) = some (b, s) →
      (match some ('\n' :: (b ++ (ticksL ++ s))) with
       | some r =>
         match afterTag r with
         | some p => some p
         | none => tryTagPy (pythonT ++ '\n' :: (b ++ (ticksL ++ s)))
       | none => tryTagPy (pythonT ++ '\n' :: (b ++ (ticksL ++ s)))) = some (b, s) :=
    fun h => h
  apply h1
  rw [afterTag]
  have hw : isPyWs '\n' = true := rfl
  rw [if_pos hw, findClose_boundary b s hb]

theorem pyScan_block (b s : List Char) (hb : ∀ c ∈ b, c ≠ btick) :
    pyScan (fenceOpenL ++ (b ++ (ticksL ++ s))) = b :: pyScan s := by
  show fenceScanAux
      ((btick :: (btick :: btick :: (pythonT ++ '\n' :: (b ++ (ticksL ++ s))))).length)
      (btick :: (btick :: btick :: (pythonT ++ '\n' :: (b ++ (ticksL ++ s))))) = b :: pyScan s
  rw [List.length_cons, fenceScanAux_cons]
  have ht : tick3 (btick :: (btick :: btick :: (pythonT ++ '\n' :: (b ++ (ticksL ++ s))))) =
      true := rfl
  rw [if_pos ht]
  have hdrop : (btick :: btick :: (pythonT ++ '\n' :: (b ++ (ticksL ++ s)))).drop 2 =
      pythonT ++ '\n' :: (b ++ (ticksL ++ s)) := rfl
  rw [hdrop, tryTags_python b s hb]
  show b :: fenceScanAux ((btick :: btick :: (pythonT ++ '\n' :: (b ++ (ticksL ++ s)))).length) s =
    b :: pyScan s
  rw [pyScan_of_le]
  simp only [List.length_cons, List.length_append]
  omega

theorem pyScan_two_blocks (b1 mid b2 tail : List Char)
    (h1 : ∀ c ∈ b1, c ≠ btick) (h2 : ∀ c ∈ mid, c ≠ btick)
    (h3 : ∀ c ∈ b2, c ≠ btick) (h4 : ∀ c ∈ tail, c ≠ btick) :
    pyScan (fenceOpenL ++ (b1 ++ (ticksL ++ (mid ++ (fenceOpenL ++ (b2 ++ (ticksL ++ tail))))))) =
      [b1, b2] := by
  rw [pyScan_block b1 _ h1, pyScan_skip mid _ h2, pyScan_block b2 _ h3,
    pyScan_nil_of_tickFree tail h4]

theorem data_fence_open : ("```python\n" : String).data = fenceOpenL := by decide

theorem data_ticks : ("```" : String).data = ticksL := by decide

theorem mk_data (s : String) : String.mk s.data = s := rfl

theorem checkList_append : ∀ (l1 l2 : List PyNode), checkList l1 = .ok () →
    checkList (l1 ++ l2) = checkList l2 := by
  intro l1
  induction l1 with
  | nil => intro l2 _; rfl
  | cons x xs ih =>
    intro l2 h
    rw [checkList] at h
    show checkList (x :: (xs ++ l2)) = checkList l2
    rw [checkList]
    cases hx : checkNode x with
    | error e =>
      rw [hx] at h
      exact absurd h (by simp)
    | ok u =>
      rw [hx] at h
      exact ih l2 h

theorem checkAliases_err : ∀ (ns : List String),
    (∃ n ∈ ns, FORBIDDEN_MODULES.contains (rootSeg n) = true) →
    ∃ m, checkAliases ns = .error (.forbiddenImport m) ∧
         FORBIDDEN_MODULES.contains (rootSeg m) = true := by
  intro ns
  induction ns with
  | nil =>
    rintro ⟨n, hn, -⟩
    cases hn
  | cons a rest ih =>
    rintro ⟨n, hn, hforb⟩
    by_cases ha : FORBIDDEN_MODULES.contains (rootSeg a) = true
    · exact ⟨a, by rw [checkAliases, if_pos ha], ha⟩
    · rcases List.mem_cons.mp hn with hna | hnr
      · subst hna
        exact absurd hforb ha
      · obtain ⟨m, hm1, hm2⟩ := ih ⟨n, hnr, hforb⟩
        refine ⟨m, ?_, hm2⟩
        rw [checkAliases, if_neg ha]
        exact hm1

theorem checkList_append_err : ∀ (l1 l2 : List PyNode) (e : Violation),
    checkList l1 = .error e → checkList (l1 ++ l2) = .error e := by
  intro l1
  induction l1 with
  | nil => intro l2 e h; exact absurd h (by simp [checkList])
  | cons x xs ih =>
    intro l2 e h
    rw [checkList] at h
    show checkList (x :: (xs ++ l2)) = .error e
    rw [checkList]
    cases hx : checkNode x with
    | error e2 =>
      rw [hx] at h
      exact h
    | ok u =>
      rw [hx] at h
      exact ih l2 e h

theorem import_first_violation (pre post : List PyNode) (ns : List String)
    (hpre : checkList pre = .ok ())
    (hex : ∃ n ∈ ns, FORBIDDEN_MODULES.contains (rootSeg n) = true) :
    ∃ m, checkNode (.moduleN (pre ++ .importN ns :: post)) = .error (.forbiddenImport m) ∧
         FORBIDDEN_MODULES.contains (rootSeg m) = true := by
  obtain ⟨m, hm1, hm2⟩ := checkAliases_err ns hex
  refine ⟨m, ?_, hm2⟩
  show checkList (pre ++ .importN ns :: post) = .error (.forbiddenImport m)
  rw [checkList_append _ _ hpre, checkList]
  have hni : checkNode (.importN ns) = .error (.forbiddenImport m) := hm1
  rw [hni]

theorem importFrom_first_violation (pre post : List PyNode) (mod : String)
    (hpre : checkList pre = .ok ())
    (hmod : FORBIDDEN_MODULES.contains (rootSeg mod) = true) :
    checkNode (.moduleN (pre ++ .importFromN (some mod) :: post)) =
      .error (.forbiddenImportFrom mod) := by
  show checkList (pre ++ .importFromN (some mod) :: post) =
    .error (.forbiddenImportFrom mod)
  rw [checkList_append _ _ hpre, checkList]
  have hni : checkNode (.importFromN (some mod)) = .error (.forbiddenImportFrom mod) := by
    show (if FORBIDDEN_MODULES.contains (rootSeg mod) = true then
            Except.error (Violation.forbiddenImportFrom mod)
          else Except.ok ()) = Except.error (Violation.forbiddenImportFrom mod)
    rw [if_pos hmod]
  rw [hni]

theorem checkNode_nest : ∀ (d : Nat) (t : PyNode), checkNode (nestOther d t) = checkNode t := by
  intro d
  induction d with
  | zero => intro t; rfl
  | succ n ih =>
    intro t
    show checkNode (.otherN [nestOther n t]) = checkNode t
    rw [checkNode, checkList, ih t]
    cases h : checkNode t with
    | error e => rfl
    | ok u => rfl

theorem literal_first_violation (pre post : List PyNode) (d : Nat) (s : String)
    (hpre : checkList pre = .ok ())
    (hs : FORBIDDEN_STRINGS.contains s = true) :
    checkNode (.moduleN (pre ++ nestOther d (.constantStrN s) :: post)) =
      .error (.forbiddenLiteral s) := by
  show checkList (pre ++ nestOther d (.constantStrN s) :: post) =
    .error (.forbiddenLiteral s)
  rw [checkList_append _ _ hpre, checkList, checkNode_nest]
  have hcs : checkNode (.constantStrN s) = .error (.forbiddenLiteral s) := by
    show (if FORBIDDEN_STRINGS.contains s = true then
            Except.error (Violation.forbiddenLiteral s)
          else Except.ok ()) = Except.error (Violation.forbiddenLiteral s)
    rw [if_pos hs]
  rw [hcs]

/-- C3 counterexample: on the fence-free artifact `x = 1`, extraction
fails with the generic `IndexError` from `python_block.pop()` on an empty
list — not with the dedicated `ExtractionError` the claim names (no such
exception class exists anywhere in the source). -/
theorem no_fence_index_error_cex :
    extract_python_code "x = 1" = .error .indexError ∧
    PyExc.indexError ≠ PyExc.extractionError :=
  ⟨rfl, by decide⟩

/-- C3 amended: for every artifact in which the findall locates no fenced
region — in particular every backtick-free artifact, such as
already-extracted source — extraction fails, but with `IndexError`; it
never round-trips and never raises a dedicated `ExtractionError`. -/
theorem no_fence_extract_index_error (s : String) :
    (pyFindall s = [] → extract_python_code s = .error .indexError) ∧
    (tickFreeS s = true → pyFindall s = []) := by
  constructor
  · intro h
    rw [extract_python_code, h]
    rfl
  · intro h
    rw [pyFindall, pyScan_nil_of_tickFree s.data (tickFree_mem h)]
    rfl

/-- C3 witness: the amended theorem applied to the concrete fence-free
artifact `x = 1`. -/
theorem no_fence_extract_index_error_witness :
    pyFindall "x = 1" = [] ∧ extract_python_code "x = 1" = .error .indexError := by
  have h := no_fence_extract_index_error "x = 1"
  have h2 : pyFindall "x = 1" = [] := h.2 rfl
  exact ⟨h2, h.1 h2⟩

/-- C4 counterexample: the extracted contents are NOT trimmed (the result
keeps its trailing newline, so it differs from its own strip), and the
language tag is NOT case-insensitive (a `PY`-tagged fence is not
recognised at all and extraction raises `IndexError`). -/
theorem extract_not_trimmed_cex :
    extract_python_code "```python\nx = 1\n```" = .ok "x = 1\n" ∧
    pyStrip "x = 1\n" = "x = 1" ∧
    ("x = 1\n" : String) ≠ "x = 1" ∧
    extract_python_code "```PY\nx = 1\n```" = .error .indexError :=
  ⟨rfl, by decide, by decide, rfl⟩

/-- C4 amended: for artifacts whose fenced regions carry the exact
(case-sensitive) tag `python`, followed by one newline, extraction returns
the *last* region's contents verbatim — with no trimming of surrounding
whitespace (the blocks, separator and trailing text contain no backtick). -/
theorem extract_last_fence_verbatim (b1 mid b2 tail : String)
    (h1 : tickFreeS b1 = true) (h2 : tickFreeS mid = true)
    (h3 : tickFreeS b2 = true) (h4 : tickFreeS tail = true) :
    extract_python_code
        ("```python\n" ++ b1 ++ "```" ++ mid ++ "```python\n" ++ b2 ++ "```" ++ tail) =
      .ok b2 := by
  have hdata :
      ("```python\n" ++ b1 ++ "```" ++ mid ++ "```python\n" ++ b2 ++ "```" ++ tail).data =
        fenceOpenL ++ (b1.data ++ (ticksL ++ (mid.data ++
          (fenceOpenL ++ (b2.data ++ (ticksL ++ tail.data)))))) := by
    rw [String.data_append, String.data_append, String.data_append, String.data_append,
      String.data_append, String.data_append, String.data_append,
      data_fence_open, data_ticks]
    simp only [List.append_assoc]
  have hscan := pyScan_two_blocks b1.data mid.data b2.data tail.data
    (tickFree_mem h1) (tickFree_mem h2) (tickFree_mem h3) (tickFree_mem h4)
  rw [extract_python_code, pyFindall, hdata, hscan]
  rfl

/-- C4 witness: the amended theorem at a concrete two-block artifact whose
last block contents `"  two  \n"` are surrounded by whitespace and are
returned verbatim, untrimmed. -/
theorem extract_last_fence_verbatim_witness :
    extract_python_code
        ("```python\n" ++ "one\n" ++ "```" ++ " mid " ++ "```python\n" ++ "  two  \n" ++
          "```" ++ " tl") = .ok "  two  \n" :=
  extract_last_fence_verbatim "one\n" " mid " "  two  \n" " tl" rfl rfl rfl rfl

/-- C7: code containing an `import` (or `from ... import`) of a module
whose root segment is forbidden never passes `SafeASTChecker`
(unconditionally); when the body before the import is otherwise clean, the
violation raised is precisely the forbidden-import one (the walk is
fail-fast, so an earlier violation would be reported first); and any
safety failure stops the pipeline at the safety stage — the compile check,
the lint stage and the Oracle are never reached (no domain stage exists in
the pipeline at all). -/
theorem forbidden_import_rejected :
    (∀ (pre post : List PyNode) (ns : List String),
        (∃ n ∈ ns, FORBIDDEN_MODULES.contains (rootSeg n) = true) →
        checkNode (.moduleN (pre ++ .importN ns :: post)) ≠ .ok ()) ∧
    (∀ (pre post : List PyNode) (mod : String),
        FORBIDDEN_MODULES.contains (rootSeg mod) = true →
        checkNode (.moduleN (pre ++ .importFromN (some mod) :: post)) ≠ .ok ()) ∧
    (∀ (pre post : List PyNode) (ns : List String),
        checkList pre = .ok () →
        (∃ n ∈ ns, FORBIDDEN_MODULES.contains (rootSeg n) = true) →
        ∃ m, checkNode (.moduleN (pre ++ .importN ns :: post)) =
              .error (.forbiddenImport m) ∧
            FORBIDDEN_MODULES.contains (rootSeg m) = true) ∧
    (∀ (pre post : List PyNode) (mod : String),
        checkList pre = .ok () →
        FORBIDDEN_MODULES.contains (rootSeg mod) = true →
        checkNode (.moduleN (pre ++ .importFromN (some mod) :: post)) =
          .error (.forbiddenImportFrom mod)) ∧
    (∀ (co : Collab) (oracle : String → String) (fuel : Nat) (code py : String) (e : PyExc),
        extract_python_code code = .ok py →
        check_safe co.parse py = .error e →
        validateWithOracle co oracle (fuel + 1) code = ⟨.error e, [], [.extracted]⟩) := by
  refine ⟨?_, ?_, ?_, ?_, ?_⟩
  · intro pre post ns hex h
    cases hpre : checkList pre with
    | error e =>
      have h3 : checkNode (.moduleN (pre ++ .importN ns :: post)) = .error e :=
        checkList_append_err pre (.importN ns :: post) e hpre
      rw [h3] at h
      exact absurd h (by simp)
    | ok u =>
      cases u
      obtain ⟨m, hm1, -⟩ := import_first_violation pre post ns hpre hex
      rw [hm1] at h
      exact absurd h (by simp)
  · intro pre post mod hmod h
    cases hpre : checkList pre with
    | error e =>
      have h3 : checkNode (.moduleN (pre ++ .importFromN (some mod) :: post)) = .error e :=
        checkList_append_err pre (.importFromN (some mod) :: post) e hpre
      rw [h3] at h
      exact absurd h (by simp)
    | ok u =>
      cases u
      have hm1 := importFrom_first_violation pre post mod hpre hmod
      rw [hm1] at h
      exact absurd h (by simp)
  · exact import_first_violation
  · exact importFrom_first_violation
  · intro co oracle fuel code py e hx hs
    simp only [validateWithOracle, hx, hs]

/-- C7 witness: the theorem at `import os.path` (also behind a dirty
prefix), at `from subprocess import ...`, and at a whole pipeline run on
the artifact containing `import os`. -/
theorem forbidden_import_rejected_witness :
    checkNode (.moduleN [.nameN "exec", .importN ["os.path"]]) ≠ .ok () ∧
    checkNode (.moduleN [.importFromN (some "urllib.request")]) ≠ .ok () ∧
    (∃ m, checkNode (.moduleN [.importN ["os.path"]]) = .error (.forbiddenImport m) ∧
          FORBIDDEN_MODULES.contains (rootSeg m) = true) ∧
    checkNode (.moduleN [.importFromN (some "subprocess")]) =
      .error (.forbiddenImportFrom "subprocess") ∧
    validateWithOracle collabE oracleNull 1 artifactE =
      ⟨.error (.unsafeCode "Import of forbidden module: os"), [], [.extracted]⟩ := by
  refine ⟨?_, ?_, ?_, ?_, ?_⟩
  · exact forbidden_import_rejected.1 [.nameN "exec"] [] ["os.path"]
      ⟨"os.path", by simp, by decide⟩
  · exact forbidden_import_rejected.2.1 [] [] "urllib.request" (by decide)
  · exact forbidden_import_rejected.2.2.1 [] [] ["os.path"] rfl ⟨"os.path", by simp, by decide⟩
  · exact forbidden_import_rejected.2.2.2.1 [] [] "subprocess" rfl (by decide)
  · exact forbidden_import_rejected.2.2.2.2 collabE oracleNull 0 artifactE "import os\n" _ rfl rfl

/-- C8: a string literal whose value is in `FORBIDDEN_STRINGS` never
passes `SafeASTChecker`, even nested arbitrarily deep inside handler-less
(never-executed) constructs; when the body before it is clean the
violation raised is precisely the forbidden-literal one. -/
theorem forbidden_literal_rejected :
    (∀ (pre post : List PyNode) (d : Nat) (s : String),
        FORBIDDEN_STRINGS.contains s = true →
        checkNode (.moduleN (pre ++ nestOther d (.constantStrN s) :: post)) ≠ .ok ()) ∧
    (∀ (pre post : List PyNode) (d : Nat) (s : String),
        checkList pre = .ok () →
        FORBIDDEN_STRINGS.contains s = true →
        checkNode (.moduleN (pre ++ nestOther d (.constantStrN s) :: post)) =
          .error (.forbiddenLiteral s)) := by
  refine ⟨?_, ?_⟩
  · intro pre post d s hs h
    cases hpre : checkList pre with
    | error e =>
      have h3 : checkNode (.moduleN (pre ++ nestOther d (.constantStrN s) :: post)) =
          .error e :=
        checkList_append_err pre (nestOther d (.constantStrN s) :: post) e hpre
      rw [h3] at h
      exact absurd h (by simp)
    | ok u =>
      cases u
      have hm1 := literal_first_violation pre post d s hpre hs
      rw [hm1] at h
      exact absurd h (by simp)
  · exact literal_first_violation

/-- C8 witness: the literal `"os"` (a forbidden token) two wrappers deep
after a clean statement, and once behind a dirty prefix. -/
theorem forbidden_literal_rejected_witness :
    checkNode (.moduleN [.nameN "x", nestOther 2 (.constantStrN "os")]) =
      .error (.forbiddenLiteral "os") ∧
    checkNode (.moduleN [.nameN "eval", nestOther 1 (.constantStrN "exec")]) ≠ .ok () := by
  constructor
  · exact forbidden_literal_rejected.2 [.nameN "x"] [] 2 "os" rfl (by decide)
  · exact forbidden_literal_rejected.1 [.nameN "eval"] [] 1 "exec" (by decide)

/-- C9: the forbidden-attribute rule of `visit_Attribute` (and the
attribute rule of `visit_Call`) fires only when the receiver is a bare
name: for a non-name receiver the node's own checks contribute nothing and
checking continues with the receiver's subtree alone. -/
theorem attribute_rule_needs_name_receiver (v : PyNode) (a : String) (args : List PyNode)
    (h : isNameN v = false) :
    checkNode (.attributeN v a) = checkNode v ∧
    checkNode (.callN (.attributeN v a) args) =
      (match checkNode v with
       | .error e => .error e
       | .ok _ => checkList args) := by
  refine ⟨?_, ?_⟩ <;> cases v <;> first | rfl | (simp [isNameN] at h)

/-- C9 witness: `a.b.remove(...)` — the attribute `remove` is in
`FORBIDDEN_ATTRS`, yet the checker accepts the call because the receiver
`a.b` is itself an attribute access, not a bare name. -/
theorem attribute_rule_needs_name_receiver_witness :
    checkNode (.callN (.attributeN (.attributeN (.nameN "a") "b") "remove") []) = .ok () ∧
    FORBIDDEN_ATTRS.contains "remove" = true := by
  constructor
  · have h := attribute_rule_needs_name_receiver (.attributeN (.nameN "a") "b") "remove" [] rfl
    rw [h.2]
    rfl
  · decide

/-- C5: when the extracted code fails `check_safe` (which covers both the
`ast.parse` syntax failure and the safety-policy walk) or the `compile`
check, the pipeline run ends with exactly that error and the Oracle is
never sent a repair request in that run. -/
theorem fatal_stop_no_repair (co : Collab) (oracle : String → String) (fuel : Nat)
    (code py : String) (e : PyExc)
    (hx : extract_python_code code = .ok py)
    (hf : check_safe co.parse py = .error e ∨
      (check_safe co.parse py = .ok true ∧ validate_compiles co.compileF py = .error e)) :
    (validateWithOracle co oracle (fuel + 1) code).result = .error e ∧
    (validateWithOracle co oracle (fuel + 1) code).prompts = [] := by
  rcases hf with hs | ⟨hs, hc⟩
  · simp only [validateWithOracle, hx, hs]
    exact ⟨trivial, trivial⟩
  · simp only [validateWithOracle, hx, hs, hc]
    exact ⟨trivial, trivial⟩

/-- C5 witness: the artifact whose extracted code is the bare forbidden
name `eval`: the run aborts with the `UnsafeCodeError` and no prompt is
ever submitted. -/
theorem fatal_stop_no_repair_witness :
    (validateWithOracle collabC oracleNull 1 artifactC).result =
      .error (.unsafeCode "Forbidden name: eval") ∧
    (validateWithOracle collabC oracleNull 1 artifactC).prompts = [] :=
  fatal_stop_no_repair collabC oracleNull 0 artifactC "eval\n"
    (.unsafeCode "Forbidden name: eval") rfl (Or.inl rfl)

/-- C1: the DomainChecked stage never runs.  `validate_spark_usage` is
defined in the source but `validate_generated_code` never calls it: no run
of either pipeline model ever reaches a domain stage, and a concrete
artifact whose code has neither `SparkSession` nor a read operation — code
`validate_spark_usage` itself rejects — is accepted whole by the pipeline
once the linter is clean. -/
theorem domain_check_dead_code :
    (∀ (co : Collab) (code : String),
        Stage.domainChecked ∉ (validate_generated_code co code).2) ∧
    (∀ (co : Collab) (oracle : String → String) (fuel : Nat) (code : String),
        Stage.domainChecked ∉ (validateWithOracle co oracle fuel code).stages) ∧
    validate_generated_code collabA artifactA =
      (.ok (.bool true), [.extracted, .safetyChecked, .compiled, .linted]) ∧
    validate_spark_usage "x = 1\n" =
      .error (.unsafeCode "Missing SparkSession -- not a valid Spark Job.") := by
  refine ⟨?_, ?_, rfl, rfl⟩
  · intro co code
    rcases hx : extract_python_code code with e | py
    · simp only [validate_generated_code, hx]
      decide
    · rcases hs : check_safe co.parse py with e | b
      · simp only [validate_generated_code, hx, hs]
        decide
      · rcases hc : validate_compiles co.compileF py with e | b2
        · simp only [validate_generated_code, hx, hs, hc]
          decide
        · rcases hr : run_ruff_lint co.ruffExit py with ⟨status, diag⟩
          cases status
          · simp only [validate_generated_code, hx, hs, hc, hr]
            decide
          · simp only [validate_generated_code, hx, hs, hc, hr]
            decide
  · intro co oracle fuel
    induction fuel with
    | zero =>
      intro code
      simp [validateWithOracle]
    | succ n ih =>
      intro code
      rcases hx : extract_python_code code with e | py
      · simp only [validateWithOracle, hx]
        decide
      · rcases hs : check_safe co.parse py with e | b
        · simp only [validateWithOracle, hx, hs]
          decide
        · rcases hc : validate_compiles co.compileF py with e | b2
          · simp only [validateWithOracle, hx, hs, hc]
            decide
          · rcases hr : run_ruff_lint co.ruffExit py with ⟨status, diag⟩
            cases status
            · simp only [validateWithOracle, hx, hs, hc, hr]
              simp only [List.mem_append, not_or]
              refine ⟨by decide, ?_⟩
              exact ih (oracle (get_ruff_fix_prompt py diag))
            · simp only [validateWithOracle, hx, hs, hc, hr]
              decide

/-- C2 counterexample: a run in which the extracted code passes the
safety, compile and (stand-alone) domain checks and the linter exits 0,
yet the pipeline returns the Python value `True` — not the validated code
string the claim (`Accepted(code)`) requires. -/
theorem accepted_returns_true_not_code :
    extract_python_code artifactB = .ok sparkCode ∧
    check_safe collabB.parse sparkCode = .ok true ∧
    validate_compiles collabB.compileF sparkCode = .ok true ∧
    validate_spark_usage sparkCode = .ok true ∧
    (collabB.ruffExit sparkCode).1 = 0 ∧
    (validate_generated_code collabB artifactB).1 = .ok (.bool true) ∧
    PyVal.bool true ≠ PyVal.str sparkCode :=
  ⟨rfl, rfl, rfl, rfl, rfl, rfl, by decide⟩

/-- C2 amended: under the claim's hypotheses (safety, compile and domain
checks pass and the linter exits 0) the pipeline terminates successfully,
but what it returns is the boolean `True`; the validated code is only
logged, never returned. -/
theorem lint_pass_returns_true (co : Collab) (code py : String)
    (hx : extract_python_code code = .ok py)
    (hs : check_safe co.parse py = .ok true)
    (hc : validate_compiles co.compileF py = .ok true)
    (_hd : validate_spark_usage py = .ok true)
    (hr : (co.ruffExit py).1 = 0) :
    validate_generated_code co code =
      (.ok (.bool true), [.extracted, .safetyChecked, .compiled, .linted]) := by
  have hrl : run_ruff_lint co.ruffExit py = (true, "") := by
    rw [run_ruff_lint]
    simp [hr]
  simp only [validate_generated_code, hx, hs, hc, hrl]

/-- C2 witness: the amended theorem at the concrete Spark-shaped run B. -/
theorem lint_pass_returns_true_witness :
    validate_generated_code collabB artifactB =
      (.ok (.bool true), [.extracted, .safetyChecked, .compiled, .linted]) :=
  lint_pass_returns_true collabB artifactB sparkCode rfl rfl rfl rfl rfl

/-- C6: on the lint-failure path the source does build the repair prompt —
`get_ruff_fix_prompt` embeds the current code and the diagnostics text
verbatim between fixed fragments — but the call `query_ollama(new_prompt)`
is missing the required `model` argument of
`query_ollama(prompt, model)`, so the run raises `TypeError` and no
request ever reaches the Oracle. -/
theorem repair_call_type_error :
    (validate_generated_code collabD artifactD).1 =
      .error (.typeError "query_ollama() missing 1 required positional argument: 'model'") ∧
    (∀ (code out : String),
        get_ruff_fix_prompt code out = RUFF_P1 ++ code ++ RUFF_P2 ++ out ++ RUFF_P3) ∧
    strContains (get_ruff_fix_prompt "import math\n" "F401 math imported but unused")
      "F401 math imported but unused" = true :=
  ⟨rfl, fun _ _ => rfl, rfl⟩

/-- C10 counterexample: when the linter reports failure the entry point
does not return `None` — under Python's call semantics it raises
`TypeError` at the mis-aritied `query_ollama` call. -/
theorem lint_failure_raises_not_none :
    run_ruff_lint collabF.ruffExit codeF1 =
      (false, "E225 missing whitespace around operator") ∧
    (validate_generated_code collabF artifactF).1 =
      .error (.typeError "query_ollama() missing 1 required positional argument: 'model'") ∧
    Except.error (PyExc.typeError "query_ollama() missing 1 required positional argument: 'model'") ≠
      (Except.ok PyVal.none : Except PyExc PyVal) :=
  ⟨rfl, rfl, by simp⟩

/-- C10 amended: under the spec's Oracle model, whenever the linter fails
and the repair sub-run itself returns (with any value — accepted or not),
the entry point returns `None`: the recursive validation's result is
discarded, so acceptance of a repaired artifact is unobservable through
the return value. -/
theorem repair_result_discarded (co : Collab) (oracle : String → String) (fuel : Nat)
    (code py diag : String) (v : PyVal)
    (hx : extract_python_code code = .ok py)
    (hs : check_safe co.parse py = .ok true)
    (hc : validate_compiles co.compileF py = .ok true)
    (hr : run_ruff_lint co.ruffExit py = (false, diag))
    (hrec : (validateWithOracle co oracle fuel (oracle (get_ruff_fix_prompt py diag))).result =
      .ok v) :
    (validateWithOracle co oracle (fuel + 1) code).result = .ok .none := by
  simp only [validateWithOracle, hx, hs, hc, hr, hrec]

/-- C10 witness: in run F the first lint fails, the Oracle's repaired
artifact is accepted by the sub-run (`.ok (.bool true)`), and yet the
whole run returns `None`. -/
theorem repair_result_discarded_witness :
    (validateWithOracle collabF oracleF 1
        (oracleF (get_ruff_fix_prompt codeF1 "E225 missing whitespace around operator"))).result =
      .ok (.bool true) ∧
    (validateWithOracle collabF oracleF 2 artifactF).result = .ok PyVal.none := by
  constructor
  · rfl
  · exact repair_result_discarded collabF oracleF 1 artifactF codeF1
      "E225 missing whitespace around operator" (.bool true) rfl rfl rfl rfl rfl
